import Mathlib

/-!
Verification of the YoCrawl agent core: a shallow embedding of the
observe → plan → act loop (`src/agent/AgentLoop.js`), the action dispatcher
(`src/executor/ActionExecutor.js`), the planner response parser and error
classifier (`src/planner/ActionPlanner.js`, `AgentLoop.classifyError`),
the browser session lifecycle (`src/browser/BrowserSession.js`) and the
session registry's record mutations (`src/agent/SessionManager.js`).

External collaborators (the real browser, the Gemini transport, wall-clock
timers) are modelled as environments supplying each call's outcome; the
control flow, state updates and all strings are transcribed from the source.
-/

/-- JavaScript values as produced by `JSON.parse` (numbers modelled as `Int`;
`undefined` is represented by `Option.none` at field-lookup sites). -/
inductive Json where
  | null
  | bool (b : Bool)
  | num (n : Int)
  | str (s : String)
  | arr (xs : List Json)
  | obj (fields : List (String × Json))
deriving Repr

/-- JavaScript truthiness of a value (`[]` and `{}` are truthy in JS). -/
def Json.truthy : Json → Bool
  | .null => false
  | .bool b => b
  | .num n => n != 0
  | .str s => s != ""
  | .arr _ => true
  | .obj _ => true

/-- Property access `v.k`: a field of an object, `undefined` (`none`) otherwise. -/
def Json.getField : Json → String → Option Json
  | .obj fs, k => fs.lookup k
  | _, _ => none

/-- JavaScript `String.prototype.includes`: substring containment. -/
def includes (s pat : String) : Bool :=
  decide (pat.data <:+: s.data)

/-- Error classification record produced by `AgentLoop.classifyError`. -/
structure Classified where
  type : String
  message : String
  retryable : Bool
deriving Repr, DecidableEq

/-- `AgentLoop.classifyError` (src/agent/AgentLoop.js, lines 197-217):
inspects the failure message for known markers, in source order. -/
def classifyError (message : String) : Classified :=
  if includes message "429" || includes message "rate limit" || includes message "quota" then
    { type := "RATE_LIMIT", message := "Rate limited: " ++ message, retryable := true }
  else if includes message "timeout" || includes message "ETIMEDOUT" then
    { type := "TIMEOUT", message := "Request timed out: " ++ message, retryable := true }
  else if includes message "ECONNREFUSED" || includes message "network" then
    { type := "NETWORK", message := "Network error: " ++ message, retryable := true }
  else if includes message "Invalid JSON" || includes message "parse" then
    { type := "PARSE_ERROR", message := "Invalid response: " ++ message, retryable := true }
  else if includes message "API key" || includes message "auth" || includes message "401" then
    { type := "AUTH_ERROR", message := "Authentication error: " ++ message, retryable := false }
  else
    { type := "UNKNOWN", message := message, retryable := false }

/-- An action request `{ action: string, ...params }` handed to the dispatcher. -/
structure ActionRequest where
  action : String
  params : Json
deriving Repr

/-- An action result: `{success:true, action, result}` or `{success:false, action, error}`. -/
structure ActionResult where
  success : Bool
  action : String
  result : Option Json
  error : Option String
deriving Repr

/-- What a primitive handler (`handler(this.page, params)`) does when invoked:
it resolves with a payload or throws. The browser is external, so this is
supplied as an environment. -/
inductive HandlerOutcome where
  | ok (result : Json)
  | thrown (msg : String)
deriving Repr

/-- The own keys of the `ACTION_HANDLERS` object literal
(src/executor/ActionExecutor.js), in source order; this is what
`Object.keys(ACTION_HANDLERS)` (and hence `listSupportedActions`) returns. -/
def ACTION_HANDLER_KEYS : List String :=
  ["navigate", "click", "type", "scroll", "wait", "screenshot",
   "extract", "select", "keypress", "hover"]

/-- The own property names of `Object.prototype` in Node (V8). Because
`ACTION_HANDLERS` is a plain object literal, the lookup
`ACTION_HANDLERS[action]` walks the prototype chain, so these names also
produce a truthy `handler` value (a function such as `constructor` or
`toString`, or the prototype object itself for `__proto__`). -/
def OBJECT_PROTOTYPE_KEYS : List String :=
  ["constructor", "__defineGetter__", "__defineSetter__", "hasOwnProperty",
   "__lookupGetter__", "__lookupSetter__", "isPrototypeOf",
   "propertyIsEnumerable", "toString", "valueOf", "__proto__",
   "toLocaleString"]

namespace ActionExecutor

/-- `ActionExecutor.execute`: the source looks up `ACTION_HANDLERS[action]`
on a plain object literal, which walks the prototype chain. An own key of
the table finds the real handler; a key naming an `Object.prototype`
property also yields a truthy `handler`, so `if (!handler)` does not fire
and the source calls `handler(this.page, params)` all the same. The call's
outcome is supplied by the environment: for an own key the primitive's
outcome, for an inherited key what the engine does (`"constructor"` invokes
`Object`, which resolves with the page; calling the non-function
`"__proto__"` throws `handler is not a function`). Only a tag found nowhere
on the chain throws the unknown-action error inside the `try`. Either way
the `catch` turns every throw into a `success:false` result, so the
function is total: no exception escapes to the caller. -/
def execute (env : ActionRequest → HandlerOutcome) (req : ActionRequest) : ActionResult :=
  if ACTION_HANDLER_KEYS.contains req.action
      || OBJECT_PROTOTYPE_KEYS.contains req.action then
    match env req with
    | .ok r => { success := true, action := req.action, result := some r, error := none }
    | .thrown m => { success := false, action := req.action, result := none, error := some m }
  else
    { success := false, action := req.action, result := none,
      error := some ("Unknown action \"" ++ req.action ++ "\". Supported: "
        ++ String.intercalate ", " ACTION_HANDLER_KEYS) }

/-- `ActionExecutor.executeBatch`: sequential execution, pushing each result
and breaking after the first `success:false`. -/
def executeBatch (env : ActionRequest → HandlerOutcome) : List ActionRequest → List ActionResult
  | [] => []
  | a :: rest =>
    let r := execute env a
    if r.success then r :: executeBatch env rest else [r]

/-- Index of the first request in the list whose dispatch fails
(the spec's `indexOfFirstFailure`). -/
def firstFailureIdx (env : ActionRequest → HandlerOutcome) : List ActionRequest → Option Nat
  | [] => none
  | a :: rest =>
    if (execute env a).success then (firstFailureIdx env rest).map (· + 1) else some 0

end ActionExecutor

/-- The object returned by `ActionPlanner.parseResponse`: field values keep
JavaScript's dynamic typing except `done`, which `parsed.done === true`
forces to a real boolean. -/
structure RawPlan where
  thinking : Json
  actions : Json
  done : Bool
  result : Json
deriving Repr

/-- JavaScript `x || dflt` on a possibly-undefined value. -/
def jsOr (v : Option Json) (dflt : Json) : Json :=
  match v with
  | some j => if j.truthy then j else dflt
  | none => dflt

namespace ActionPlanner

/-- `ActionPlanner.parseResponse` (src/planner/ActionPlanner.js, lines 154-169).
`JSON.parse` is a platform primitive, so its outcome on the raw string is the
input: `.ok` with the parsed value, or `.error` with the parse failure
message. When the parse yields `null` (the raw string `"null"` is valid
JSON), the very first property access `parsed.thinking` throws a TypeError
inside the `try`; `tyErr` is the engine's TypeError message, and the `catch`
rethrows it under the same `Invalid JSON from Gemini` prefix. Every other
parsed value supports property access (absent fields read as `undefined`),
so the plan object is built. -/
def parseResponse (tyErr : String) (parsed : Except String Json) :
    Except String RawPlan :=
  match parsed with
  | .error e => .error ("Invalid JSON from Gemini: " ++ e)
  | .ok .null => .error ("Invalid JSON from Gemini: " ++ tyErr)
  | .ok p =>
    .ok { thinking := jsOr (p.getField "thinking") (.str "")
          actions := jsOr (p.getField "actions") (.arr [])
          done := match p.getField "done" with
                  | some (.bool true) => true
                  | _ => false
          result := jsOr (p.getField "result") .null }

end ActionPlanner

/-- Page snapshot returned by `PageContextExtractor.extract`
(src/context/PageContextExtractor.js): `{ url, title, interactiveElements,
visibleText }`. The element list's internals are irrelevant to the loop. -/
structure PageContext where
  url : String
  title : String
  interactiveElements : List Json
  visibleText : String
deriving Repr

/-- A completed plan as consumed by the loop (`plan.thinking`, `plan.actions`,
`plan.done`, `plan.result`). -/
structure Plan where
  thinking : String
  actions : List ActionRequest
  done : Bool
  result : Json
deriving Repr

/-- One entry of `this.history`: `{ step, plan, results }`. -/
structure StepRecord where
  step : Nat
  plan : Plan
  results : List ActionResult
deriving Repr

/-- `config.agent` (src/config.js): the fields the loop reads. -/
structure AgentConfig where
  maxSteps : Nat
  stepDelayMs : Nat
deriving Repr

/-- Mutable fields of an `AgentLoop` instance (constructor,
src/agent/AgentLoop.js lines 28-40), minus the collaborator handles. -/
structure AgentState where
  stepCount : Nat
  history : List StepRecord
  status : String
  aborted : Bool
  consecutiveErrors : Nat
  maxConsecutiveErrors : Nat
deriving Repr

/-- Fresh `AgentLoop` state as set by the constructor. -/
def initialAgentState : AgentState :=
  { stepCount := 0, history := [], status := "idle", aborted := false,
    consecutiveErrors := 0, maxConsecutiveErrors := 3 }

/-- The report object built by `AgentLoop.buildReport`. `browserUptime` is a
wall-clock reading of the external browser session and is not modelled. -/
structure Report where
  task : String
  totalSteps : Nat
  maxSteps : Nat
  result : Json
  history : List StepRecord
deriving Repr

/-- Outcomes of one loop iteration's collaborator calls, supplied per
iteration by the environment. `stopBefore` records whether `stop()` fired
during the awaits since the previous iteration's flag check. -/
structure IterEnv where
  stopBefore : Bool
  observe : Except String PageContext
  plan : Except String Plan
  handlers : ActionRequest → HandlerOutcome

/-- Result of executing one body of the `while` loop: terminate with a
report, or continue with an updated state. -/
inductive IterResult where
  | exit (report : Report) (st : AgentState)
  | next (st : AgentState)

/-- State carried by an `IterResult`. -/
def IterResult.state : IterResult → AgentState
  | .exit _ st => st
  | .next st => st

def abortReportMsg : String := "Task aborted by user."

def maxStepsMsg : String := "Max steps reached. Task may be incomplete."

/-- Report message of the consecutive-planner-error exit
(`AgentLoop.loop`, line 122). -/
def plannerErrorMsg (n : Nat) (last : String) : String :=
  "Agent stopped: " ++ toString n ++ " consecutive planner errors. Last: " ++ last

namespace AgentLoop

/-- `AgentLoop.buildReport` (src/agent/AgentLoop.js lines 182-191). -/
def buildReport (cfg : AgentConfig) (st : AgentState) (finalResult : Json) : Report :=
  { task := "complete", totalSteps := st.stepCount, maxSteps := cfg.maxSteps,
    result := finalResult, history := st.history }

/-- `AgentLoop.stop` (src/agent/AgentLoop.js lines 171-175): sets the
cancellation flag and unconditionally overwrites the status. -/
def stop (st : AgentState) : AgentState :=
  { st with aborted := true, status := "stopping" }

/-- One iteration of the `while (this.stepCount < maxSteps)` body of
`AgentLoop.loop` (src/agent/AgentLoop.js lines 77-165), including the loop
condition itself: condition check, abort check, step increment, observe
(failure: sleep and `continue` — no decrement), plan (success resets the
error counter; failure increments it, exits at the threshold, otherwise
decrements `stepCount` and retries), done exit, empty-actions retry, and
the act phase appending to history. -/
def stepIter (cfg : AgentConfig) (e : IterEnv) (st0 : AgentState) : IterResult :=
  if st0.stepCount < cfg.maxSteps then
    let st1 := if e.stopBefore then stop st0 else st0
    if st1.aborted then
      .exit (buildReport cfg st1 (.str abortReportMsg)) st1
    else
      let st2 := { st1 with stepCount := st1.stepCount + 1 }
      match e.observe with
      | .error _ => .next st2
      | .ok _ctx =>
        match e.plan with
        | .error errMsg =>
          let st3 := { st2 with consecutiveErrors := st2.consecutiveErrors + 1 }
          let classified := classifyError errMsg
          if st3.maxConsecutiveErrors ≤ st3.consecutiveErrors then
            .exit (buildReport cfg st3
              (.str (plannerErrorMsg st3.consecutiveErrors classified.message))) st3
          else
            .next { st3 with stepCount := st3.stepCount - 1 }
        | .ok plan =>
          let st3 := { st2 with consecutiveErrors := 0 }
          if plan.done then
            .exit (buildReport cfg st3 plan.result) st3
          else if plan.actions.isEmpty then
            .next st3
          else
            let results := ActionExecutor.executeBatch e.handlers plan.actions
            .next { st3 with
                      history := st3.history ++ [⟨st3.stepCount, plan, results⟩] }
  else
    .exit (buildReport cfg st0 (.str maxStepsMsg)) st0

/-- `AgentLoop.loop`: iterate `stepIter` with the environment indexed by
iteration count. Fuel bounds the number of iterations; `none` means the
fuel ran out before the loop terminated. -/
def loopGo (cfg : AgentConfig) (env : Nat → IterEnv) :
    Nat → Nat → AgentState → Option (Report × AgentState)
  | 0, _, _ => none
  | fuel + 1, it, st =>
    match stepIter cfg (env it) st with
    | .exit r st' => some (r, st')
    | .next st' => loopGo cfg env fuel (it + 1) st'

end AgentLoop

/-- Handle fields of a `BrowserSession` (src/browser/BrowserSession.js):
`browser`, `context`, `page` are `null` or live handles. -/
structure BrowserSession where
  browser : Option Unit
  context : Option Unit
  page : Option Unit
deriving Repr

/-- Fresh `BrowserSession` as set by its constructor: everything `null`. -/
def initialBrowserSession : BrowserSession :=
  { browser := none, context := none, page := none }

/-- What `BrowserSession.launch` does, decided by the external browser:
succeed; reject inside `chromium.launch` (before `this.browser` is
assigned); or reject in `newContext`/`newPage` (after `this.browser` is
assigned). -/
inductive LaunchOutcome where
  | ok
  | failEarly (msg : String)
  | failLate (msg : String)
deriving Repr

namespace BrowserSession

/-- `BrowserSession.launch` (lines 20-53): the resulting session fields and
whether the call threw. -/
def launch : LaunchOutcome → BrowserSession → BrowserSession × Except String Unit
  | .ok, _ => (⟨some (), some (), some ()⟩, .ok ())
  | .failEarly m, s => (s, .error m)
  | .failLate m, s => ({ s with browser := some () }, .error m)

/-- `BrowserSession.close` (lines 55-73): a no-op when `this.browser` is
`null`, otherwise closes the browser (close errors are swallowed) and nulls
every handle. -/
def close (s : BrowserSession) : BrowserSession :=
  if s.browser.isSome then ⟨none, none, none⟩ else s

end BrowserSession

/-- Environment of one `AgentLoop.run` call: outcome of `launch`, outcome of
the optional `page.goto`, per-iteration loop outcomes, and iteration fuel. -/
structure RunEnv where
  launch : LaunchOutcome
  goto : Except String Unit
  iters : Nat → IterEnv
  fuel : Nat

/-- Observable outcome of `AgentLoop.run`: the value returned or error
re-raised, the final `this.status`, the final loop state, and the browser
session after the `finally` block. -/
structure RunOutcome where
  result : Except String Report
  status : String
  finalState : AgentState
  session : BrowserSession
deriving Repr

namespace AgentLoop

/-- `AgentLoop.run` (src/agent/AgentLoop.js lines 42-71): set status
`running`; `try` launch, optional goto, then the loop; on normal return set
status `complete` and emit `task:complete`; on a throw set status `error`,
emit `task:error` with the classification, and re-raise; `finally` close the
session. `none` only when the loop fuel ran out. -/
def run (cfg : AgentConfig) (renv : RunEnv) (startUrl : Option String)
    (st0 : AgentState) (sess0 : BrowserSession) : Option RunOutcome :=
  let st := { st0 with status := "running" }
  let launched := BrowserSession.launch renv.launch sess0
  match launched.2 with
  | .error e =>
    some { result := .error e, status := "error",
           finalState := { st with status := "error" },
           session := launched.1.close }
  | .ok _ =>
    match startUrl, renv.goto with
    | some _, .error e =>
      some { result := .error e, status := "error",
             finalState := { st with status := "error" },
             session := launched.1.close }
    | _, _ =>
      match loopGo cfg renv.iters renv.fuel 0 st with
      | none => none
      | some (r, st') =>
        some { result := .ok r, status := "complete",
               finalState := { st' with status := "complete" },
               session := launched.1.close }

end AgentLoop

/-- `config.agent.sessionTimeoutMinutes`, the only configuration the session
record mutations read. -/
structure ManagerConfig where
  sessionTimeoutMinutes : Nat
deriving Repr

/-- The error message written by the registry's timeout handler
(src/agent/SessionManager.js line 56). -/
def sessionTimeoutMsg (mins : Nat) : String :=
  "Session timed out after " ++ toString mins ++ " minutes"

/-- The per-session record kept by `SessionManager.createSession`, fused with
the status of its bound agent (the fields every claim about the registry
reads). `completedAt` carries a logical timestamp; `timeoutArmed` tracks
whether the `setTimeout` handle is still pending. -/
structure SessionRecord where
  report : Option Report
  error : Option String
  completedAt : Option Nat
  agentStatus : String
  agentAborted : Bool
  timeoutArmed : Bool
  steps : List String
deriving Repr

/-- Record as built by `createSession`: report/error/completedAt `null`, a
fresh idle agent, timer armed. -/
def initialSessionRecord : SessionRecord :=
  { report := none, error := none, completedAt := none, agentStatus := "idle",
    agentAborted := false, timeoutArmed := true, steps := [] }

/-- Atomic mutations of one session record. `EventEmitter.emit` runs its
listeners synchronously, so each agent emission together with the status
write that immediately precedes it in `AgentLoop.run` is one event. -/
inductive SessionEvent where
  /-- `AgentLoop.run` entry: `this.status = 'running'`. -/
  | runStart
  /-- A `step:start` / `step:observe` / `step:plan` / `step:act` listener
  (src/agent/SessionManager.js lines 71-102) appending to `session.steps`. -/
  | phase (tag : String)
  /-- Loop returned a report: `run` sets status `complete` and the
  `task:complete` listener (lines 104-108) writes `report`/`completedAt`. -/
  | loopCompleted (r : Report) (now : Nat)
  /-- Loop threw: `run` sets status `error` and the `task:error` listener
  (lines 110-114) writes `error`/`completedAt`. -/
  | loopFailed (e : String) (now : Nat)
  /-- The session timeout fires (lines 52-60): if the agent is still
  `running`, stop it and write the timeout error; otherwise nothing.
  Either way the one-shot timer is spent. -/
  | timerFire (now : Nat)
  /-- `SessionManager.stopSession` (lines 121-135): unconditional
  `agent.stop()` plus `clearTimeout`. -/
  | stopRequest

/-- Apply one `SessionEvent` to a record, transcribing the registry's
listeners, timeout handler and `stopSession`. -/
def applyEvent (cfg : ManagerConfig) (st : SessionRecord) : SessionEvent → SessionRecord
  | .runStart => { st with agentStatus := "running" }
  | .phase t => { st with steps := st.steps ++ [t] }
  | .loopCompleted r now =>
    { st with agentStatus := "complete", report := some r, completedAt := some now }
  | .loopFailed e now =>
    { st with agentStatus := "error", error := some e, completedAt := some now }
  | .timerFire now =>
    if st.timeoutArmed then
      if st.agentStatus = "running" then
        { st with agentAborted := true, agentStatus := "stopping",
                  error := some (sessionTimeoutMsg cfg.sessionTimeoutMinutes),
                  completedAt := some now, timeoutArmed := false }
      else
        { st with timeoutArmed := false }
    else st
  | .stopRequest =>
    { st with agentAborted := true, agentStatus := "stopping", timeoutArmed := false }

/-- Fold a sequence of session events over a record. -/
def runEvents (cfg : ManagerConfig) (st : SessionRecord) : List SessionEvent → SessionRecord
  | [] => st
  | e :: es => runEvents cfg (applyEvent cfg st e) es

/-! ## Shared lemmas -/

theorem includes_append_left (p e pat : String) (h : includes p pat = true) :
    includes (p ++ e) pat = true := by
  simp only [includes, decide_eq_true_eq] at h ⊢
  rw [String.data_append]
  exact h.trans (List.prefix_append p.data e.data).isInfix

/-! ## C5: executeBatch order and stop-on-first-failure -/

theorem firstFailureIdx_lt_length (env : ActionRequest → HandlerOutcome) :
    ∀ (l : List ActionRequest) (k : Nat),
      ActionExecutor.firstFailureIdx env l = some k → k < l.length := by
  intro l
  induction l with
  | nil => intro k hk; simp [ActionExecutor.firstFailureIdx] at hk
  | cons a rest ih =>
    intro k hk
    by_cases hs : (ActionExecutor.execute env a).success
    · simp only [ActionExecutor.firstFailureIdx, hs, if_true, Option.map_eq_some'] at hk
      obtain ⟨j, hj, rfl⟩ := hk
      simpa using Nat.succ_lt_succ (ih j hj)
    · simp only [ActionExecutor.firstFailureIdx, hs, if_false] at hk
      cases hk
      simp

/-- C5: `executeBatch` executes the requests strictly in array order; when
some request fails, the result list is exactly the dispatch of the first
`indexOfFirstFailure + 1` requests (so it has that length, includes the
failure and omits untried trailing requests); when none fails, it is the
dispatch of the whole input, of the input's length. -/
theorem c5_executeBatch_order (env : ActionRequest → HandlerOutcome)
    (as : List ActionRequest) :
    (∀ k, ActionExecutor.firstFailureIdx env as = some k →
      ActionExecutor.executeBatch env as
        = (as.take (k + 1)).map (ActionExecutor.execute env) ∧
      (ActionExecutor.executeBatch env as).length = k + 1) ∧
    (ActionExecutor.firstFailureIdx env as = none →
      ActionExecutor.executeBatch env as = as.map (ActionExecutor.execute env) ∧
      (ActionExecutor.executeBatch env as).length = as.length) := by
  induction as with
  | nil =>
    refine ⟨fun k hk => ?_, fun _ => ⟨rfl, rfl⟩⟩
    simp [ActionExecutor.firstFailureIdx] at hk
  | cons a rest ih =>
    by_cases hs : (ActionExecutor.execute env a).success
    · constructor
      · intro k hk
        simp only [ActionExecutor.firstFailureIdx, hs, if_true, Option.map_eq_some'] at hk
        obtain ⟨j, hj, rfl⟩ := hk
        have := (ih.1 j hj)
        simp only [ActionExecutor.executeBatch, hs, if_true, List.take_succ_cons,
          List.map_cons, List.length_cons, this.1, this.2]
        simpa using Nat.succ_le_of_lt (firstFailureIdx_lt_length env rest j hj)
      · intro hk
        simp only [ActionExecutor.firstFailureIdx, hs, if_true,
          Option.map_eq_none'] at hk
        have := ih.2 hk
        simp only [ActionExecutor.executeBatch, hs, if_true, List.map_cons,
          List.length_cons, this.1, this.2]
        simp
    · constructor
      · intro k hk
        simp only [ActionExecutor.firstFailureIdx, hs, if_false] at hk
        cases hk
        simp [ActionExecutor.executeBatch, hs]
      · intro hk
        simp [ActionExecutor.firstFailureIdx, hs] at hk

/-- Witness for C5 at a concrete batch: `navigate` succeeds, `click` throws,
`type` is never tried; the result list has length `1 + 1 = 2`. -/
theorem c5_executeBatch_order_witness :
    ActionExecutor.executeBatch
        (fun req => if req.action = "click" then .thrown "Element not found"
                    else .ok .null)
        [⟨"navigate", .null⟩, ⟨"click", .null⟩, ⟨"type", .null⟩]
      = ([⟨"navigate", .null⟩, ⟨"click", .null⟩, ⟨"type", .null⟩].take 2).map
          (ActionExecutor.execute
            (fun req => if req.action = "click" then .thrown "Element not found"
                        else .ok .null)) ∧
    (ActionExecutor.executeBatch
        (fun req => if req.action = "click" then .thrown "Element not found"
                    else .ok .null)
        [⟨"navigate", .null⟩, ⟨"click", .null⟩, ⟨"type", .null⟩]).length = 2 :=
  (c5_executeBatch_order
    (fun req => if req.action = "click" then .thrown "Element not found"
                else .ok .null)
    [⟨"navigate", .null⟩, ⟨"click", .null⟩, ⟨"type", .null⟩]).1 1 (by decide)

/-! ## C6: unknown action tags and the prototype chain -/

/-- Counterexample for C6: the tag `"constructor"` is not a key of the fixed
dispatch table, yet the prototype-chain lookup finds
`Object.prototype.constructor` (the `Object` function), which the source
then calls — `Object(this.page, params)` resolves with the page — so the
result is `success:true`, not the fail-closed unknown-action result. The
tag `"__proto__"` does fail, but with the engine's
`handler is not a function` message, which names neither the tag nor the
supported tags. -/
theorem c6_counterexample :
    ActionExecutor.execute
        (fun req => if req.action = "__proto__"
                    then .thrown "handler is not a function"
                    else .ok (.obj []))
        ⟨"constructor", .null⟩
      = { success := true, action := "constructor", result := some (.obj []),
          error := none } ∧
    ACTION_HANDLER_KEYS.contains "constructor" = false ∧
    ActionExecutor.execute
        (fun req => if req.action = "__proto__"
                    then .thrown "handler is not a function"
                    else .ok (.obj []))
        ⟨"__proto__", .null⟩
      = { success := false, action := "__proto__", result := none,
          error := some "handler is not a function" } ∧
    ACTION_HANDLER_KEYS.contains "__proto__" = false :=
  ⟨rfl, rfl, rfl, rfl⟩

/-- C6 corrected: for every request whose kind tag is neither an own key of
the fixed dispatch table nor an inherited `Object.prototype` property name,
`execute` returns `success = false` with a message that names the
unrecognized tag and lists the supported tags; `execute` is a total function
into `ActionResult`, so no exception reaches the caller. Tags naming
`Object.prototype` properties bypass the fail-closed branch (see the
counterexample). -/
theorem c6_unknown_action (env : ActionRequest → HandlerOutcome) (req : ActionRequest)
    (h : ACTION_HANDLER_KEYS.contains req.action = false)
    (hp : OBJECT_PROTOTYPE_KEYS.contains req.action = false) :
    ActionExecutor.execute env req =
      { success := false, action := req.action, result := none,
        error := some ("Unknown action \"" ++ req.action
          ++ "\". Supported: "
          ++ "navigate, click, type, scroll, wait, screenshot, extract, select, keypress, hover") } := by
  rw [show ("navigate, click, type, scroll, wait, screenshot, extract, select, keypress, hover"
    : String) = String.intercalate ", " ACTION_HANDLER_KEYS from rfl]
  have h' : req.action ∉ ACTION_HANDLER_KEYS := by simpa using h
  have hp' : req.action ∉ OBJECT_PROTOTYPE_KEYS := by simpa using hp
  simp [ActionExecutor.execute, h', hp']

/-- Witness for C6 (corrected): the tag `"dance"`, found nowhere on the
prototype chain, fails closed with the message naming it. -/
theorem c6_unknown_action_witness :
    ActionExecutor.execute (fun _ => .ok .null) ⟨"dance", .null⟩ =
      { success := false, action := "dance", result := none,
        error := some ("Unknown action \"" ++ "dance"
          ++ "\". Supported: "
          ++ "navigate, click, type, scroll, wait, screenshot, extract, select, keypress, hover") } :=
  c6_unknown_action (fun _ => .ok .null) ⟨"dance", .null⟩ (by decide) (by decide)

/-! ## C10: parseResponse field coercions, parse failure, classification -/

/-- Counterexample for C10: the raw response string `"null"` is valid JSON
and parses to `null`, but `parseResponse` does not return a plan — the very
first property access on `null` throws a TypeError (message per the
engine), which the `catch` rethrows under the `Invalid JSON from Gemini`
prefix. -/
theorem c10_counterexample :
    ActionPlanner.parseResponse "Cannot read properties of null" (.ok .null)
      = .error ("Invalid JSON from Gemini: "
          ++ "Cannot read properties of null") :=
  rfl

theorem parseResponse_ok_fields (tyErr : String) (j : Json) (rp : RawPlan)
    (hok : ActionPlanner.parseResponse tyErr (.ok j) = .ok rp) :
    rp.done = (match j.getField "done" with
               | some (.bool true) => true
               | _ => false) ∧
    rp.actions = jsOr (j.getField "actions") (.arr []) ∧
    rp.result = jsOr (j.getField "result") .null := by
  rcases j with _ | b | n | s | xs | fs
  · simp [ActionPlanner.parseResponse] at hok
  · simp only [ActionPlanner.parseResponse, Except.ok.injEq] at hok
    subst hok; exact ⟨rfl, rfl, rfl⟩
  · simp only [ActionPlanner.parseResponse, Except.ok.injEq] at hok
    subst hok; exact ⟨rfl, rfl, rfl⟩
  · simp only [ActionPlanner.parseResponse, Except.ok.injEq] at hok
    subst hok; exact ⟨rfl, rfl, rfl⟩
  · simp only [ActionPlanner.parseResponse, Except.ok.injEq] at hok
    subst hok; exact ⟨rfl, rfl, rfl⟩
  · simp only [ActionPlanner.parseResponse, Except.ok.injEq] at hok
    subst hok; exact ⟨rfl, rfl, rfl⟩

/-- C10 corrected: whenever `parseResponse` does return a plan (the parsed
JSON is not `null`), its `done` flag is `true` exactly when the `done` field
is the boolean `true` (any other value, including the string `"true"`,
gives `false`), a falsy or absent `actions` field becomes the empty list and
a falsy or absent `result` field becomes `null`. A response that parses to
`null` does NOT yield a plan: the property access throws a TypeError that is
rethrown under the `Invalid JSON from Gemini` prefix, exactly like an
unparsable response; both messages begin with `"Invalid JSON"` and the
loop's classifier maps such a message to the retryable `PARSE_ERROR` kind
(provided the platform message does not accidentally contain one of the
markers checked earlier by `classifyError`). -/
theorem c10_parseResponse (tyErr : String) (j : Json) (rp : RawPlan) (e : String)
    (hok : ActionPlanner.parseResponse tyErr (.ok j) = .ok rp)
    (h1 : includes ("Invalid JSON from Gemini: " ++ e) "429" = false)
    (h2 : includes ("Invalid JSON from Gemini: " ++ e) "rate limit" = false)
    (h3 : includes ("Invalid JSON from Gemini: " ++ e) "quota" = false)
    (h4 : includes ("Invalid JSON from Gemini: " ++ e) "timeout" = false)
    (h5 : includes ("Invalid JSON from Gemini: " ++ e) "ETIMEDOUT" = false)
    (h6 : includes ("Invalid JSON from Gemini: " ++ e) "ECONNREFUSED" = false)
    (h7 : includes ("Invalid JSON from Gemini: " ++ e) "network" = false) :
    (rp.done = true ↔ j.getField "done" = some (.bool true)) ∧
    ((∀ v, j.getField "actions" = some v → v.truthy = false) → rp.actions = .arr []) ∧
    ((∀ v, j.getField "result" = some v → v.truthy = false) → rp.result = .null) ∧
    ActionPlanner.parseResponse tyErr (.error e)
      = .error ("Invalid JSON from Gemini: " ++ e) ∧
    ActionPlanner.parseResponse tyErr (.ok .null)
      = .error ("Invalid JSON from Gemini: " ++ tyErr) ∧
    "Invalid JSON from Gemini: " ++ e = "Invalid JSON" ++ (" from Gemini: " ++ e) ∧
    classifyError ("Invalid JSON from Gemini: " ++ e) =
      { type := "PARSE_ERROR",
        message := "Invalid response: " ++ ("Invalid JSON from Gemini: " ++ e),
        retryable := true } := by
  obtain ⟨hd, ha, hr⟩ := parseResponse_ok_fields tyErr j rp hok
  refine ⟨?_, ?_, ?_, rfl, rfl, ?_, ?_⟩
  · rw [hd]
    rcases hdd : j.getField "done" with _ | v
    · simp
    · rcases v with _ | b | n | s | xs | fs
      · simp
      · cases b <;> simp
      · simp
      · simp
      · simp
      · simp
  · intro hft
    rw [ha]
    rcases haa : j.getField "actions" with _ | v
    · simp [jsOr]
    · simp [jsOr, hft v haa]
  · intro hft
    rw [hr]
    rcases hrr : j.getField "result" with _ | v
    · simp [jsOr]
    · simp [jsOr, hft v hrr]
  · rw [← String.append_assoc]
    rfl
  · have hij : includes ("Invalid JSON from Gemini: " ++ e) "Invalid JSON" = true :=
      includes_append_left "Invalid JSON from Gemini: " e "Invalid JSON" (by decide)
    simp [classifyError, h1, h2, h3, h4, h5, h6, h7, hij]

/-- Witness for C10 (corrected): the object `{"done": "true", "result": false}`
parses to `done = false`, `actions = []`, `result = null`; the unparsable raw
string with platform message `"Unexpected end of input"` and the raw string
`"null"` both produce `Invalid JSON` errors, the former classified as
retryable `PARSE_ERROR`. -/
theorem c10_parseResponse_witness :
    ((⟨.str "", .arr [], false, .null⟩ : RawPlan).done = true
        ↔ (Json.obj [("done", .str "true"), ("result", .bool false)]).getField "done"
            = some (.bool true)) ∧
    ((∀ v, (Json.obj [("done", .str "true"), ("result", .bool false)]).getField "actions"
        = some v → v.truthy = false) →
      (⟨.str "", .arr [], false, .null⟩ : RawPlan).actions = .arr []) ∧
    ((∀ v, (Json.obj [("done", .str "true"), ("result", .bool false)]).getField "result"
        = some v → v.truthy = false) →
      (⟨.str "", .arr [], false, .null⟩ : RawPlan).result = .null) ∧
    ActionPlanner.parseResponse "Cannot read properties of null"
        (.error "Unexpected end of input")
      = .error ("Invalid JSON from Gemini: " ++ "Unexpected end of input") ∧
    ActionPlanner.parseResponse "Cannot read properties of null" (.ok .null)
      = .error ("Invalid JSON from Gemini: " ++ "Cannot read properties of null") ∧
    "Invalid JSON from Gemini: " ++ "Unexpected end of input"
      = "Invalid JSON" ++ (" from Gemini: " ++ "Unexpected end of input") ∧
    classifyError ("Invalid JSON from Gemini: " ++ "Unexpected end of input") =
      { type := "PARSE_ERROR",
        message := "Invalid response: "
          ++ ("Invalid JSON from Gemini: " ++ "Unexpected end of input"),
        retryable := true } :=
  c10_parseResponse "Cannot read properties of null"
    (Json.obj [("done", .str "true"), ("result", .bool false)])
    ⟨.str "", .arr [], false, .null⟩ "Unexpected end of input"
    rfl (by decide) (by decide) (by decide) (by decide) (by decide) (by decide) (by decide)

/-! ## Agent loop lemmas -/

theorem stepIter_state_le (cfg : AgentConfig) (e : IterEnv) (st : AgentState)
    (h : st.stepCount ≤ cfg.maxSteps) :
    (AgentLoop.stepIter cfg e st).state.stepCount ≤ cfg.maxSteps := by
  by_cases hlt : st.stepCount < cfg.maxSteps
  · cases hstop : e.stopBefore with
    | true =>
      simp [AgentLoop.stepIter, hlt, hstop, AgentLoop.stop, IterResult.state]
      omega
    | false =>
      cases hab : st.aborted with
      | true =>
        simp [AgentLoop.stepIter, hlt, hstop, hab, IterResult.state]
        omega
      | false =>
        rcases hobs : e.observe with m | c
        · simp [AgentLoop.stepIter, hlt, hstop, hab, hobs, IterResult.state]
          omega
        · rcases hpl : e.plan with m | p
          · by_cases hth : st.maxConsecutiveErrors ≤ st.consecutiveErrors + 1 <;>
              simp [AgentLoop.stepIter, hlt, hstop, hab, hobs, hpl, hth,
                IterResult.state] <;> omega
          · cases hd : p.done with
            | true =>
              simp [AgentLoop.stepIter, hlt, hstop, hab, hobs, hpl, hd, IterResult.state]
              omega
            | false =>
              cases he : p.actions.isEmpty with
              | true =>
                simp [AgentLoop.stepIter, hlt, hstop, hab, hobs, hpl, hd, he,
                  IterResult.state]
                omega
              | false =>
                simp [AgentLoop.stepIter, hlt, hstop, hab, hobs, hpl, hd, he,
                  IterResult.state]
                omega
  · simp [AgentLoop.stepIter, hlt, IterResult.state]
    omega

theorem stepIter_exit_report (cfg : AgentConfig) (e : IterEnv) (st : AgentState)
    (r : Report) (st' : AgentState)
    (heq : AgentLoop.stepIter cfg e st = .exit r st') :
    r.totalSteps = st'.stepCount := by
  by_cases hlt : st.stepCount < cfg.maxSteps
  · cases hstop : e.stopBefore with
    | true =>
      simp [AgentLoop.stepIter, hlt, hstop, AgentLoop.stop, AgentLoop.buildReport] at heq
      obtain ⟨h1, h2⟩ := heq
      subst h1; subst h2; rfl
    | false =>
      cases hab : st.aborted with
      | true =>
        simp [AgentLoop.stepIter, hlt, hstop, hab, AgentLoop.buildReport] at heq
        obtain ⟨h1, h2⟩ := heq
        subst h1; subst h2; rfl
      | false =>
        rcases hobs : e.observe with m | c
        · simp [AgentLoop.stepIter, hlt, hstop, hab, hobs] at heq
        · rcases hpl : e.plan with m | p
          · by_cases hth : st.maxConsecutiveErrors ≤ st.consecutiveErrors + 1
            · simp [AgentLoop.stepIter, hlt, hstop, hab, hobs, hpl, hth,
                AgentLoop.buildReport] at heq
              obtain ⟨h1, h2⟩ := heq
              subst h1; subst h2; rfl
            · simp [AgentLoop.stepIter, hlt, hstop, hab, hobs, hpl, hth] at heq
          · cases hd : p.done with
            | true =>
              simp [AgentLoop.stepIter, hlt, hstop, hab, hobs, hpl, hd,
                AgentLoop.buildReport] at heq
              obtain ⟨h1, h2⟩ := heq
              subst h1; subst h2; rfl
            | false =>
              cases he : p.actions.isEmpty with
              | true =>
                simp [AgentLoop.stepIter, hlt, hstop, hab, hobs, hpl, hd, he] at heq
              | false =>
                simp [AgentLoop.stepIter, hlt, hstop, hab, hobs, hpl, hd, he] at heq
  · simp [AgentLoop.stepIter, hlt, AgentLoop.buildReport] at heq
    obtain ⟨h1, h2⟩ := heq
    subst h1; subst h2; rfl

theorem loopGo_le (cfg : AgentConfig) (env : Nat → IterEnv) :
    ∀ (fuel it : Nat) (st : AgentState), st.stepCount ≤ cfg.maxSteps →
      ∀ (r : Report) (st' : AgentState),
        AgentLoop.loopGo cfg env fuel it st = some (r, st') →
          st'.stepCount ≤ cfg.maxSteps ∧ r.totalSteps = st'.stepCount := by
  intro fuel
  induction fuel with
  | zero => intro it st _ r st' hl; simp [AgentLoop.loopGo] at hl
  | succ n ih =>
    intro it st h r st' hl
    simp only [AgentLoop.loopGo] at hl
    rcases hres : AgentLoop.stepIter cfg (env it) st with ⟨r0, st0⟩ | st0
    · rw [hres] at hl
      simp only [Option.some.injEq, Prod.mk.injEq] at hl
      obtain ⟨h1, h2⟩ := hl
      subst h1; subst h2
      have hle := stepIter_state_le cfg (env it) st h
      rw [hres] at hle
      simp only [IterResult.state] at hle
      exact ⟨hle, stepIter_exit_report cfg (env it) st r0 st0 hres⟩
    · rw [hres] at hl
      have hle := stepIter_state_le cfg (env it) st h
      rw [hres] at hle
      simp only [IterResult.state] at hle
      exact ih (it + 1) st0 hle r st' hl

theorem stepIter_continue_shape (cfg : AgentConfig) (e : IterEnv) (st : AgentState)
    (hstop : e.stopBefore = false) (hab : st.aborted = false)
    (hplan : ∀ m, e.plan ≠ .error m)
    (hdone : ∀ p, e.plan = .ok p → p.done = false) :
    (AgentLoop.stepIter cfg e st
        = .exit (AgentLoop.buildReport cfg st (.str maxStepsMsg)) st ∧
      cfg.maxSteps ≤ st.stepCount) ∨
    (∃ st', AgentLoop.stepIter cfg e st = .next st' ∧ st'.aborted = false) := by
  by_cases hlt : st.stepCount < cfg.maxSteps
  · right
    rcases hobs : e.observe with m | c
    · exact ⟨{ st with stepCount := st.stepCount + 1 },
        by simp [AgentLoop.stepIter, hlt, hstop, hab, hobs], hab⟩
    · rcases hpl : e.plan with m | p
      · exact absurd hpl (hplan m)
      · have hd := hdone p hpl
        cases he : p.actions.isEmpty with
        | true =>
          exact ⟨{ st with stepCount := st.stepCount + 1, consecutiveErrors := 0 },
            by simp [AgentLoop.stepIter, hlt, hstop, hab, hobs, hpl, hd, he], hab⟩
        | false =>
          exact ⟨{ st with
                   stepCount := st.stepCount + 1,
                   consecutiveErrors := 0,
                   history := st.history ++ [⟨st.stepCount + 1, p,
                     ActionExecutor.executeBatch e.handlers p.actions⟩] },
            by simp [AgentLoop.stepIter, hlt, hstop, hab, hobs, hpl, hd, he], hab⟩
  · left
    exact ⟨by simp [AgentLoop.stepIter, hlt], by omega⟩

theorem loopGo_noExit (cfg : AgentConfig) (env : Nat → IterEnv)
    (hstop : ∀ i, (env i).stopBefore = false)
    (hplan : ∀ i m, (env i).plan ≠ .error m)
    (hdone : ∀ i p, (env i).plan = .ok p → p.done = false) :
    ∀ (fuel it : Nat) (st : AgentState), st.aborted = false →
      ∀ (r : Report) (st' : AgentState),
        AgentLoop.loopGo cfg env fuel it st = some (r, st') →
          r.result = .str maxStepsMsg ∧ cfg.maxSteps ≤ st'.stepCount := by
  intro fuel
  induction fuel with
  | zero => intro it st _ r st' hl; simp [AgentLoop.loopGo] at hl
  | succ n ih =>
    intro it st hab r st' hl
    simp only [AgentLoop.loopGo] at hl
    rcases stepIter_continue_shape cfg (env it) st (hstop it) hab (hplan it) (hdone it)
      with ⟨heq, hge⟩ | ⟨st0, heq, hab0⟩
    · rw [heq] at hl
      simp only [Option.some.injEq, Prod.mk.injEq] at hl
      obtain ⟨h1, h2⟩ := hl
      subst h1; subst h2
      exact ⟨rfl, hge⟩
    · rw [heq] at hl
      exact ih (it + 1) st0 hab0 r st' hl

/-! ## C8: step budget and incomplete report -/

/-- C8: in every terminating execution of the loop the step counter never
exceeds `config.agent.maxSteps`; and when the budget is exhausted without the
planner ever signalling completion (no plan failures, no stop request, a
successful launch), `run` returns the non-error "incomplete" report — the
result is `.ok` (nothing is thrown, so no error is set on the session) with
result string `maxStepsMsg` and `totalSteps` equal to the configured
maximum, and the final status is `complete`. -/
theorem c8_budget (cfg : AgentConfig) (renv : RunEnv) (startUrl : Option String)
    (out : RunOutcome)
    (hrun : AgentLoop.run cfg renv startUrl initialAgentState initialBrowserSession
      = some out) :
    out.finalState.stepCount ≤ cfg.maxSteps ∧
    ((∀ i, (renv.iters i).stopBefore = false) →
     (∀ i m, (renv.iters i).plan ≠ .error m) →
     (∀ i p, (renv.iters i).plan = .ok p → p.done = false) →
     renv.launch = .ok → startUrl = none →
       out.result.map Report.result = .ok (.str maxStepsMsg) ∧
       out.result.map Report.totalSteps = .ok cfg.maxSteps ∧
       out.status = "complete" ∧ out.finalState.status = "complete") := by
  constructor
  · simp only [AgentLoop.run] at hrun
    rcases hlc : renv.launch with _ | m | m <;>
      simp only [hlc, BrowserSession.launch] at hrun
    · rcases startUrl with _ | u
      · rcases hloop : AgentLoop.loopGo cfg renv.iters renv.fuel 0
            { initialAgentState with status := "running" } with _ | ⟨r0, st0⟩ <;>
          simp only [hloop, Option.some.injEq, reduceCtorEq] at hrun
        subst hrun
        have := loopGo_le cfg renv.iters renv.fuel 0
          { initialAgentState with status := "running" } (Nat.zero_le _) r0 st0 hloop
        simpa using this.1
      · rcases hgoto : renv.goto with gm | _ <;>
          simp only [hgoto, Option.some.injEq] at hrun
        · subst hrun; exact Nat.zero_le _
        · rcases hloop : AgentLoop.loopGo cfg renv.iters renv.fuel 0
              { initialAgentState with status := "running" } with _ | ⟨r0, st0⟩ <;>
            simp only [hloop, Option.some.injEq, reduceCtorEq] at hrun
          subst hrun
          have := loopGo_le cfg renv.iters renv.fuel 0
            { initialAgentState with status := "running" } (Nat.zero_le _) r0 st0 hloop
          simpa using this.1
    · simp only [Option.some.injEq] at hrun
      subst hrun; exact Nat.zero_le _
    · simp only [Option.some.injEq] at hrun
      subst hrun; exact Nat.zero_le _
  · intro hstop hplan hdone hlc hsu
    subst hsu
    simp only [AgentLoop.run, hlc, BrowserSession.launch] at hrun
    rcases hloop : AgentLoop.loopGo cfg renv.iters renv.fuel 0
        { initialAgentState with status := "running" } with _ | ⟨r0, st0⟩ <;>
      simp only [hloop, Option.some.injEq, reduceCtorEq] at hrun
    subst hrun
    have hne := loopGo_noExit cfg renv.iters hstop hplan hdone renv.fuel 0
      { initialAgentState with status := "running" } rfl r0 st0 hloop
    have hlee := loopGo_le cfg renv.iters renv.fuel 0
      { initialAgentState with status := "running" } (Nat.zero_le _) r0 st0 hloop
    have htot : r0.totalSteps = cfg.maxSteps := by omega
    simp only [Except.map, hne.1, htot]
    simp

/-- Witness for C8: with `maxSteps = 1` and a planner that always returns a
plan with `done = false` and no actions, the run exhausts the budget and
returns the incomplete report with `totalSteps = 1` and no error. -/
theorem c8_budget_witness :
    ({ result := .ok { task := "complete"
                       totalSteps := 1
                       maxSteps := 1
                       result := .str maxStepsMsg
                       history := [] }
       status := "complete"
       finalState := { stepCount := 1
                       history := []
                       status := "complete"
                       aborted := false
                       consecutiveErrors := 0
                       maxConsecutiveErrors := 3 }
       session := ⟨none, none, none⟩ } : RunOutcome).finalState.stepCount ≤ 1 ∧
    ({ result := .ok { task := "complete"
                       totalSteps := 1
                       maxSteps := 1
                       result := .str maxStepsMsg
                       history := [] }
       status := "complete"
       finalState := { stepCount := 1
                       history := []
                       status := "complete"
                       aborted := false
                       consecutiveErrors := 0
                       maxConsecutiveErrors := 3 }
       session := ⟨none, none, none⟩ } : RunOutcome).result.map Report.result
      = .ok (.str maxStepsMsg) := by
  have h := c8_budget ⟨1, 0⟩
    ⟨.ok, .ok (), fun _ => ⟨false, .ok ⟨"", "", [], ""⟩, .ok ⟨"", [], false, .null⟩,
      fun _ => .ok .null⟩, 3⟩
    none
    { result := .ok { task := "complete"
                      totalSteps := 1
                      maxSteps := 1
                      result := .str maxStepsMsg
                      history := [] }
      status := "complete"
      finalState := { stepCount := 1
                      history := []
                      status := "complete"
                      aborted := false
                      consecutiveErrors := 0
                      maxConsecutiveErrors := 3 }
      session := ⟨none, none, none⟩ }
    rfl
  exact ⟨h.1, (h.2 (fun _ => rfl) (fun _ _ hm => Except.noConfusion hm)
    (fun _ p hp => by cases hp; rfl) rfl rfl).1⟩

/-! ## C9: unconditional resource release -/

/-- C9: for every outcome of `run` (successful completion, budget exhaustion,
classified fatal error, cancellation, or a launch/navigation fault) the
browser session is released by the `finally` block before `run` returns or
re-raises: every handle of the resulting session is `null`. -/
theorem c9_release (cfg : AgentConfig) (renv : RunEnv) (startUrl : Option String)
    (st0 : AgentState) (out : RunOutcome)
    (hrun : AgentLoop.run cfg renv startUrl st0 initialBrowserSession = some out) :
    out.session.browser = none ∧ out.session.context = none ∧
      out.session.page = none := by
  simp only [AgentLoop.run] at hrun
  rcases hlc : renv.launch with _ | m | m <;>
    simp only [hlc, BrowserSession.launch] at hrun
  · rcases startUrl with _ | u
    · rcases hloop : AgentLoop.loopGo cfg renv.iters renv.fuel 0
          { st0 with status := "running" } with _ | ⟨r0, st1⟩ <;>
        simp only [hloop, Option.some.injEq, reduceCtorEq] at hrun
      subst hrun
      simp [BrowserSession.close]
    · rcases hgoto : renv.goto with gm | _ <;>
        simp only [hgoto, Option.some.injEq] at hrun
      · subst hrun
        simp [BrowserSession.close]
      · rcases hloop : AgentLoop.loopGo cfg renv.iters renv.fuel 0
            { st0 with status := "running" } with _ | ⟨r0, st1⟩ <;>
          simp only [hloop, Option.some.injEq, reduceCtorEq] at hrun
        subst hrun
        simp [BrowserSession.close]
  · simp only [Option.some.injEq] at hrun
    subst hrun
    simp [BrowserSession.close, initialBrowserSession]
  · simp only [Option.some.injEq] at hrun
    subst hrun
    simp [BrowserSession.close]

/-- Witness for C9: a run whose launch fails before the browser handle is
assigned still ends with every session handle `null`. -/
theorem c9_release_witness :
    ({ result := .error "browser crashed"
       status := "error"
       finalState := { stepCount := 0
                       history := []
                       status := "error"
                       aborted := false
                       consecutiveErrors := 0
                       maxConsecutiveErrors := 3 }
       session := ⟨none, none, none⟩ } : RunOutcome).session.browser = none ∧
    ({ result := .error "browser crashed"
       status := "error"
       finalState := { stepCount := 0
                       history := []
                       status := "error"
                       aborted := false
                       consecutiveErrors := 0
                       maxConsecutiveErrors := 3 }
       session := ⟨none, none, none⟩ } : RunOutcome).session.context = none ∧
    ({ result := .error "browser crashed"
       status := "error"
       finalState := { stepCount := 0
                       history := []
                       status := "error"
                       aborted := false
                       consecutiveErrors := 0
                       maxConsecutiveErrors := 3 }
       session := ⟨none, none, none⟩ } : RunOutcome).session.page = none :=
  c9_release ⟨1, 0⟩
    ⟨.failEarly "browser crashed", .ok (),
      fun _ => ⟨false, .error "x", .error "y", fun _ => .ok .null⟩, 0⟩
    none initialAgentState
    { result := .error "browser crashed"
      status := "error"
      finalState := { stepCount := 0
                      history := []
                      status := "error"
                      aborted := false
                      consecutiveErrors := 0
                      maxConsecutiveErrors := 3 }
      session := ⟨none, none, none⟩ }
    rfl

/-! ## C1: three consecutive planner failures -/

theorem loopGo_succ (cfg : AgentConfig) (env : Nat → IterEnv) (fuel it : Nat)
    (st : AgentState) :
    AgentLoop.loopGo cfg env (fuel + 1) it st =
      match AgentLoop.stepIter cfg (env it) st with
      | .exit r st' => some (r, st')
      | .next st' => AgentLoop.loopGo cfg env fuel (it + 1) st' := rfl

/-- Counterexample for C1: with a planner that fails on every call
(message `"boom"`), the consecutive-error counter reaches the threshold 3,
but the session terminates with status `complete` and an ordinary report
(`result` is `.ok`, carrying the stop message in its result string) — not in
the `Error` terminal state: `loop` returns `buildReport(...)` normally, so
`run` never enters its `catch`. -/
theorem c1_counterexample :
    AgentLoop.run ⟨4, 0⟩
      ⟨.ok, .ok (),
        fun _ => ⟨false, .ok ⟨"", "", [], ""⟩, .error "boom", fun _ => .ok .null⟩, 6⟩
      none initialAgentState initialBrowserSession
    = some { result := .ok { task := "complete"
                             totalSteps := 1
                             maxSteps := 4
                             result := .str
                               "Agent stopped: 3 consecutive planner errors. Last: boom"
                             history := [] }
             status := "complete"
             finalState := { stepCount := 1
                             history := []
                             status := "complete"
                             aborted := false
                             consecutiveErrors := 3
                             maxConsecutiveErrors := 3 }
             session := ⟨none, none, none⟩ } := rfl

/-- C1 corrected: after 3 uninterrupted planner failures the counter reaches
the threshold and the session terminates — but in the `Complete` state, with
a report whose result message carries the error count and the last
failure's classification message; no error is raised (`result` is `.ok`). -/
theorem c1_threshold_completes (cfg : AgentConfig) (renv : RunEnv) (n : Nat)
    (ca cb cc : PageContext) (e0 e1 e2 : String)
    (hms : 1 ≤ cfg.maxSteps)
    (hfuel : renv.fuel = n + 3)
    (hlaunch : renv.launch = .ok)
    (hs0 : (renv.iters 0).stopBefore = false)
    (ho0 : (renv.iters 0).observe = .ok ca)
    (hp0 : (renv.iters 0).plan = .error e0)
    (hs1 : (renv.iters 1).stopBefore = false)
    (ho1 : (renv.iters 1).observe = .ok cb)
    (hp1 : (renv.iters 1).plan = .error e1)
    (hs2 : (renv.iters 2).stopBefore = false)
    (ho2 : (renv.iters 2).observe = .ok cc)
    (hp2 : (renv.iters 2).plan = .error e2) :
    AgentLoop.run cfg renv none initialAgentState initialBrowserSession
      = some { result := .ok { task := "complete"
                               totalSteps := 1
                               maxSteps := cfg.maxSteps
                               result := .str (plannerErrorMsg 3
                                 (classifyError e2).message)
                               history := [] }
               status := "complete"
               finalState := { stepCount := 1
                               history := []
                               status := "complete"
                               aborted := false
                               consecutiveErrors := 3
                               maxConsecutiveErrors := 3 }
               session := ⟨none, none, none⟩ } := by
  have hlt : 0 < cfg.maxSteps := hms
  have i0 : AgentLoop.stepIter cfg (renv.iters 0)
        { initialAgentState with status := "running" }
      = .next ⟨0, [], "running", false, 1, 3⟩ := by
    simp [AgentLoop.stepIter, initialAgentState, hlt, hs0, ho0, hp0]
  have i1 : AgentLoop.stepIter cfg (renv.iters 1) ⟨0, [], "running", false, 1, 3⟩
      = .next ⟨0, [], "running", false, 2, 3⟩ := by
    simp [AgentLoop.stepIter, hlt, hs1, ho1, hp1]
  have i2 : AgentLoop.stepIter cfg (renv.iters 2) ⟨0, [], "running", false, 2, 3⟩
      = .exit { task := "complete"
                totalSteps := 1
                maxSteps := cfg.maxSteps
                result := .str (plannerErrorMsg 3 (classifyError e2).message)
                history := [] }
          ⟨1, [], "running", false, 3, 3⟩ := by
    simp [AgentLoop.stepIter, AgentLoop.buildReport, hlt, hs2, ho2, hp2]
  have l2 : AgentLoop.loopGo cfg renv.iters (n + 1) 2 ⟨0, [], "running", false, 2, 3⟩
      = some ({ task := "complete"
                totalSteps := 1
                maxSteps := cfg.maxSteps
                result := .str (plannerErrorMsg 3 (classifyError e2).message)
                history := [] },
              ⟨1, [], "running", false, 3, 3⟩) := by
    rw [loopGo_succ, i2]
  have l1 : AgentLoop.loopGo cfg renv.iters (n + 2) 1 ⟨0, [], "running", false, 1, 3⟩
      = some ({ task := "complete"
                totalSteps := 1
                maxSteps := cfg.maxSteps
                result := .str (plannerErrorMsg 3 (classifyError e2).message)
                history := [] },
              ⟨1, [], "running", false, 3, 3⟩) := by
    rw [show n + 2 = (n + 1) + 1 from rfl, loopGo_succ, i1]
    exact l2
  have l0 : AgentLoop.loopGo cfg renv.iters (n + 3) 0
        { initialAgentState with status := "running" }
      = some ({ task := "complete"
                totalSteps := 1
                maxSteps := cfg.maxSteps
                result := .str (plannerErrorMsg 3 (classifyError e2).message)
                history := [] },
              ⟨1, [], "running", false, 3, 3⟩) := by
    rw [show n + 3 = (n + 2) + 1 from rfl, loopGo_succ, i0]
    exact l1
  simp only [AgentLoop.run, hlaunch, BrowserSession.launch, hfuel, l0]
  rfl

/-- Witness for C1 (corrected): three `"timeout"`-classified planner failures
terminate the run in the `Complete` state with the stop report carrying the
`TIMEOUT` classification's message. -/
theorem c1_threshold_completes_witness :
    AgentLoop.run ⟨5, 0⟩
      ⟨.ok, .ok (),
        fun _ => ⟨false, .ok ⟨"", "", [], ""⟩, .error "timeout", fun _ => .ok .null⟩,
        2 + 3⟩
      none initialAgentState initialBrowserSession
      = some { result := .ok { task := "complete"
                               totalSteps := 1
                               maxSteps := 5
                               result := .str (plannerErrorMsg 3
                                 (classifyError "timeout").message)
                               history := [] }
               status := "complete"
               finalState := { stepCount := 1
                               history := []
                               status := "complete"
                               aborted := false
                               consecutiveErrors := 3
                               maxConsecutiveErrors := 3 }
               session := ⟨none, none, none⟩ } :=
  c1_threshold_completes ⟨5, 0⟩
    ⟨.ok, .ok (),
      fun _ => ⟨false, .ok ⟨"", "", [], ""⟩, .error "timeout", fun _ => .ok .null⟩,
      2 + 3⟩
    2 ⟨"", "", [], ""⟩ ⟨"", "", [], ""⟩ ⟨"", "", [], ""⟩ "timeout" "timeout" "timeout"
    (by decide) rfl rfl rfl rfl rfl rfl rfl rfl rfl rfl rfl

/-! ## C4: observe failures and the step budget -/

/-- Counterexample for C4: with `maxSteps = 2` and an extractor that always
fails, two failed observe attempts exhaust the entire budget — the run ends
with the max-steps report and `totalSteps = 2` although no step was ever
planned. Failed observe attempts are therefore counted against the budget
and the retry runs at the next step index, contradicting the claim. -/
theorem c4_counterexample :
    AgentLoop.run ⟨2, 0⟩
      ⟨.ok, .ok (),
        fun _ => ⟨false, .error "detached frame", .ok ⟨"", [], false, .null⟩,
          fun _ => .ok .null⟩, 4⟩
      none initialAgentState initialBrowserSession
    = some { result := .ok { task := "complete"
                             totalSteps := 2
                             maxSteps := 2
                             result := .str maxStepsMsg
                             history := [] }
             status := "complete"
             finalState := { stepCount := 2
                             history := []
                             status := "complete"
                             aborted := false
                             consecutiveErrors := 0
                             maxConsecutiveErrors := 3 }
             session := ⟨none, none, none⟩ } := rfl

/-- C4 corrected: when the observe phase fails the loop pauses and retries,
but the failed attempt consumes budget — the loop continues with the step
counter left incremented (no decrement as in the plan-failure path), so the
retry runs at the next step index. -/
theorem c4_observe_retry (cfg : AgentConfig) (e : IterEnv) (st : AgentState)
    (m : String)
    (h1 : st.stepCount < cfg.maxSteps) (h2 : e.stopBefore = false)
    (h3 : st.aborted = false) (h4 : e.observe = .error m) :
    AgentLoop.stepIter cfg e st = .next { st with stepCount := st.stepCount + 1 } := by
  simp [AgentLoop.stepIter, h1, h2, h3, h4]

/-- Witness for C4 (corrected): a failed observe at step counter 0 continues
with the counter at 1. -/
theorem c4_observe_retry_witness :
    AgentLoop.stepIter ⟨2, 0⟩
      ⟨false, .error "detached frame", .ok ⟨"", [], false, .null⟩, fun _ => .ok .null⟩
      initialAgentState
    = .next { initialAgentState with stepCount := initialAgentState.stepCount + 1 } :=
  c4_observe_retry ⟨2, 0⟩
    ⟨false, .error "detached frame", .ok ⟨"", [], false, .null⟩, fun _ => .ok .null⟩
    initialAgentState "detached frame" (by decide) rfl rfl rfl

/-! ## C7: error-counter reset and what totalSteps counts -/

/-- Counterexample for C7: three consecutive `"timeout"` planner failures
terminate the run with `totalSteps = 1` and an empty history, although no
step produced a completed plan — the attempt that trips the threshold stays
counted, so `totalSteps` does not reflect only completed-plan steps. -/
theorem c7_counterexample :
    AgentLoop.run ⟨9, 0⟩
      ⟨.ok, .ok (),
        fun _ => ⟨false, .ok ⟨"", "", [], ""⟩, .error "timeout of 30000ms exceeded",
          fun _ => .ok .null⟩, 5⟩
      none initialAgentState initialBrowserSession
    = some { result := .ok { task := "complete"
                             totalSteps := 1
                             maxSteps := 9
                             result := .str (plannerErrorMsg 3
                               (classifyError "timeout of 30000ms exceeded").message)
                             history := [] }
             status := "complete"
             finalState := { stepCount := 1
                             history := []
                             status := "complete"
                             aborted := false
                             consecutiveErrors := 3
                             maxConsecutiveErrors := 3 }
             session := ⟨none, none, none⟩ } := rfl

/-- C7 corrected: after any successful plan the consecutive-planner-error
counter is 0 (first conjunct, for every plan outcome of that iteration); and
a failed plan attempt below the threshold retries the step with the step
counter restored, so only those failed attempts leave `totalSteps`
unchanged — the attempt that reaches the threshold remains counted. -/
theorem c7_amended (cfg : AgentConfig) (e e2 : IterEnv) (st st2 : AgentState)
    (c : PageContext) (p : Plan) (m : String)
    (h1 : st.stepCount < cfg.maxSteps) (h2 : e.stopBefore = false)
    (h3 : st.aborted = false) (h4 : e.observe = .ok c) (h5 : e.plan = .ok p)
    (g1 : st2.stepCount < cfg.maxSteps) (g2 : e2.stopBefore = false)
    (g3 : st2.aborted = false) (g4 : e2.observe = .ok c) (g5 : e2.plan = .error m)
    (g6 : st2.consecutiveErrors + 1 < st2.maxConsecutiveErrors) :
    (AgentLoop.stepIter cfg e st).state.consecutiveErrors = 0 ∧
    AgentLoop.stepIter cfg e2 st2
      = .next { st2 with consecutiveErrors := st2.consecutiveErrors + 1 } := by
  constructor
  · cases hd : p.done with
    | true => simp [AgentLoop.stepIter, h1, h2, h3, h4, h5, hd, IterResult.state]
    | false =>
      cases he : p.actions.isEmpty with
      | true => simp [AgentLoop.stepIter, h1, h2, h3, h4, h5, hd, he, IterResult.state]
      | false => simp [AgentLoop.stepIter, h1, h2, h3, h4, h5, hd, he, IterResult.state]
  · have hth : ¬ (st2.maxConsecutiveErrors ≤ st2.consecutiveErrors + 1) := by omega
    simp [AgentLoop.stepIter, g1, g2, g3, g4, g5, hth]

/-- Witness for C7 (corrected) at concrete inputs: a successful plan leaves
the counter at 0, and a first planner failure retries with the step counter
restored to 0 and the error counter at 1. -/
theorem c7_amended_witness :
    (AgentLoop.stepIter ⟨5, 0⟩
        ⟨false, .ok ⟨"", "", [], ""⟩, .ok ⟨"", [], false, .null⟩, fun _ => .ok .null⟩
        initialAgentState).state.consecutiveErrors = 0 ∧
    AgentLoop.stepIter ⟨5, 0⟩
        ⟨false, .ok ⟨"", "", [], ""⟩, .error "rate limit", fun _ => .ok .null⟩
        initialAgentState
      = .next { initialAgentState with
                consecutiveErrors := initialAgentState.consecutiveErrors + 1 } :=
  c7_amended ⟨5, 0⟩
    ⟨false, .ok ⟨"", "", [], ""⟩, .ok ⟨"", [], false, .null⟩, fun _ => .ok .null⟩
    ⟨false, .ok ⟨"", "", [], ""⟩, .error "rate limit", fun _ => .ok .null⟩
    initialAgentState initialAgentState ⟨"", "", [], ""⟩ ⟨"", [], false, .null⟩
    "rate limit"
    (by decide) rfl rfl rfl rfl (by decide) rfl rfl rfl rfl (by decide)

/-! ## C2: finalization of the session record -/

theorem runEvents_inv (cfg : ManagerConfig) :
    ∀ (es : List SessionEvent) (st : SessionRecord),
      (st.agentStatus = "complete" → st.report.isSome = true) →
      (st.agentStatus = "error" → st.error.isSome = true) →
      ((runEvents cfg st es).agentStatus = "complete" →
        (runEvents cfg st es).report.isSome = true) ∧
      ((runEvents cfg st es).agentStatus = "error" →
        (runEvents cfg st es).error.isSome = true) := by
  intro es
  induction es with
  | nil => intro st h1 h2; exact ⟨h1, h2⟩
  | cons e es ih =>
    intro st h1 h2
    simp only [runEvents]
    apply ih
    · rcases e with _ | t | ⟨r, n1⟩ | ⟨m1, n1⟩ | n1 | _
      · simp [applyEvent]
      · simpa [applyEvent] using h1
      · simp [applyEvent]
      · simp [applyEvent]
      · by_cases harmed : st.timeoutArmed
        · by_cases hrun : st.agentStatus = "running"
          · simp [applyEvent, harmed, hrun]
          · simpa [applyEvent, harmed, hrun] using h1
        · simpa [applyEvent, harmed] using h1
      · simp [applyEvent]
    · rcases e with _ | t | ⟨r, n1⟩ | ⟨m1, n1⟩ | n1 | _
      · simp [applyEvent]
      · simpa [applyEvent] using h2
      · simp [applyEvent]
      · simp [applyEvent]
      · by_cases harmed : st.timeoutArmed
        · by_cases hrun : st.agentStatus = "running"
          · simp [applyEvent, harmed, hrun]
          · simpa [applyEvent, harmed, hrun] using h2
        · simpa [applyEvent, harmed] using h2
      · simp [applyEvent]

/-- Counterexample for C2: the timeout fires while the agent is running
(writing `error`), the loop later terminates naturally (its `task:complete`
listener writes `report` without checking that the record is already
finalized) — the terminal record ends with BOTH `report` and `error` set,
refuting "never both set" and "first writer wins". -/
theorem c2_counterexample :
    (runEvents ⟨15⟩ initialSessionRecord
        [.runStart, .timerFire 1,
         .loopCompleted ⟨"complete", 1, 25, .str "Task aborted by user.", []⟩ 2]).report.isSome
      = true ∧
    (runEvents ⟨15⟩ initialSessionRecord
        [.runStart, .timerFire 1,
         .loopCompleted ⟨"complete", 1, 25, .str "Task aborted by user.", []⟩ 2]).error
      = some (sessionTimeoutMsg 15) ∧
    (runEvents ⟨15⟩ initialSessionRecord
        [.runStart, .timerFire 1,
         .loopCompleted ⟨"complete", 1, 25, .str "Task aborted by user.", []⟩ 2]).agentStatus
      = "complete" :=
  ⟨rfl, rfl, rfl⟩

/-- C2 corrected: a terminal record always has AT LEAST the matching one of
{report, error} set (status `complete` implies `report` present, status
`error` implies `error` present), and a timer firing on a record whose agent
is no longer `running` leaves report, error, completion timestamp and status
untouched; but when the timer fires first, the loop's own termination still
writes its half, so both fields can end up set (see the counterexample). -/
theorem c2_finalization (cfg : ManagerConfig) (es : List SessionEvent)
    (st' : SessionRecord) (now : Nat)
    (hterm : st'.agentStatus ≠ "running") :
    ((runEvents cfg initialSessionRecord es).agentStatus = "complete" →
      (runEvents cfg initialSessionRecord es).report.isSome = true) ∧
    ((runEvents cfg initialSessionRecord es).agentStatus = "error" →
      (runEvents cfg initialSessionRecord es).error.isSome = true) ∧
    (applyEvent cfg st' (.timerFire now)).report = st'.report ∧
    (applyEvent cfg st' (.timerFire now)).error = st'.error ∧
    (applyEvent cfg st' (.timerFire now)).completedAt = st'.completedAt ∧
    (applyEvent cfg st' (.timerFire now)).agentStatus = st'.agentStatus := by
  have hinv := runEvents_inv cfg es initialSessionRecord (by simp [initialSessionRecord])
    (by simp [initialSessionRecord])
  refine ⟨hinv.1, hinv.2, ?_⟩
  by_cases harmed : st'.timeoutArmed <;>
    simp [applyEvent, harmed, hterm]

/-- Witness for C2 (corrected): after a normal run (start, natural
completion) the record with status `complete` carries a report; and a timer
firing on that already-terminal record does not touch it. -/
theorem c2_finalization_witness :
    ((runEvents ⟨15⟩ initialSessionRecord
        [.runStart, .loopCompleted ⟨"complete", 1, 25, .str "ok", []⟩ 1]).agentStatus
        = "complete" →
      (runEvents ⟨15⟩ initialSessionRecord
        [.runStart, .loopCompleted ⟨"complete", 1, 25, .str "ok", []⟩ 1]).report.isSome
        = true) ∧
    ((runEvents ⟨15⟩ initialSessionRecord
        [.runStart, .loopCompleted ⟨"complete", 1, 25, .str "ok", []⟩ 1]).agentStatus
        = "error" →
      (runEvents ⟨15⟩ initialSessionRecord
        [.runStart, .loopCompleted ⟨"complete", 1, 25, .str "ok", []⟩ 1]).error.isSome
        = true) ∧
    (applyEvent ⟨15⟩
        { report := some ⟨"complete", 1, 25, .str "ok", []⟩
          error := none
          completedAt := some 1
          agentStatus := "complete"
          agentAborted := false
          timeoutArmed := true
          steps := [] } (.timerFire 9)).report
      = ({ report := some ⟨"complete", 1, 25, .str "ok", []⟩
           error := none
           completedAt := some 1
           agentStatus := "complete"
           agentAborted := false
           timeoutArmed := true
           steps := [] } : SessionRecord).report ∧
    (applyEvent ⟨15⟩
        { report := some ⟨"complete", 1, 25, .str "ok", []⟩
          error := none
          completedAt := some 1
          agentStatus := "complete"
          agentAborted := false
          timeoutArmed := true
          steps := [] } (.timerFire 9)).error
      = ({ report := some ⟨"complete", 1, 25, .str "ok", []⟩
           error := none
           completedAt := some 1
           agentStatus := "complete"
           agentAborted := false
           timeoutArmed := true
           steps := [] } : SessionRecord).error ∧
    (applyEvent ⟨15⟩
        { report := some ⟨"complete", 1, 25, .str "ok", []⟩
          error := none
          completedAt := some 1
          agentStatus := "complete"
          agentAborted := false
          timeoutArmed := true
          steps := [] } (.timerFire 9)).completedAt
      = ({ report := some ⟨"complete", 1, 25, .str "ok", []⟩
           error := none
           completedAt := some 1
           agentStatus := "complete"
           agentAborted := false
           timeoutArmed := true
           steps := [] } : SessionRecord).completedAt ∧
    (applyEvent ⟨15⟩
        { report := some ⟨"complete", 1, 25, .str "ok", []⟩
          error := none
          completedAt := some 1
          agentStatus := "complete"
          agentAborted := false
          timeoutArmed := true
          steps := [] } (.timerFire 9)).agentStatus
      = ({ report := some ⟨"complete", 1, 25, .str "ok", []⟩
           error := none
           completedAt := some 1
           agentStatus := "complete"
           agentAborted := false
           timeoutArmed := true
           steps := [] } : SessionRecord).agentStatus :=
  c2_finalization ⟨15⟩
    [.runStart, .loopCompleted ⟨"complete", 1, 25, .str "ok", []⟩ 1]
    { report := some ⟨"complete", 1, 25, .str "ok", []⟩
      error := none
      completedAt := some 1
      agentStatus := "complete"
      agentAborted := false
      timeoutArmed := true
      steps := [] }
    9 (by decide)

/-! ## C3: status monotonicity -/

/-- Counterexample for C3: a session observed `complete` after its run, then
hit with `stopSession`, is observed `stopping` afterwards — `stop()`
unconditionally overwrites the status, so terminal states are not absorbing
and the claimed monotonicity fails. -/
theorem c3_counterexample :
    (runEvents ⟨15⟩ initialSessionRecord
        [.runStart, .loopCompleted ⟨"complete", 2, 25, .str "done", []⟩ 1]).agentStatus
      = "complete" ∧
    (runEvents ⟨15⟩ initialSessionRecord
        [.runStart, .loopCompleted ⟨"complete", 2, 25, .str "done", []⟩ 1,
         .stopRequest]).agentStatus
      = "stopping" :=
  ⟨rfl, rfl⟩

/-- C3 corrected: a terminal status (`complete` or `error`) survives a
later-firing timer and the phase listeners unchanged, but `stopSession`
(via `AgentLoop.stop`) unconditionally sets the status to `stopping`, also
on an already-terminal session — so monotonicity holds only in the absence
of stop requests after termination. -/
theorem c3_status (cfg : ManagerConfig) (st : SessionRecord) (ast : AgentState)
    (now : Nat) (t : String)
    (hterm : st.agentStatus = "complete" ∨ st.agentStatus = "error") :
    (applyEvent cfg st (.timerFire now)).agentStatus = st.agentStatus ∧
    (applyEvent cfg st (.phase t)).agentStatus = st.agentStatus ∧
    (applyEvent cfg st .stopRequest).agentStatus = "stopping" ∧
    (AgentLoop.stop ast).status = "stopping" := by
  have hne : ¬ st.agentStatus = "running" := by
    rcases hterm with h | h <;> simp [h]
  refine ⟨?_, ?_, ?_, rfl⟩
  · by_cases harmed : st.timeoutArmed <;> simp [applyEvent, harmed, hne]
  · simp [applyEvent]
  · simp [applyEvent]

/-- Witness for C3 (corrected) on a concrete completed record: the timer and
a phase event leave the status `complete`, while a stop request overwrites
it with `stopping`. -/
theorem c3_status_witness :
    (applyEvent ⟨15⟩
        { report := some ⟨"complete", 2, 25, .str "done", []⟩
          error := none
          completedAt := some 1
          agentStatus := "complete"
          agentAborted := false
          timeoutArmed := true
          steps := [] } (.timerFire 9)).agentStatus
      = ({ report := some ⟨"complete", 2, 25, .str "done", []⟩
           error := none
           completedAt := some 1
           agentStatus := "complete"
           agentAborted := false
           timeoutArmed := true
           steps := [] } : SessionRecord).agentStatus ∧
    (applyEvent ⟨15⟩
        { report := some ⟨"complete", 2, 25, .str "done", []⟩
          error := none
          completedAt := some 1
          agentStatus := "complete"
          agentAborted := false
          timeoutArmed := true
          steps := [] } (.phase "act")).agentStatus
      = ({ report := some ⟨"complete", 2, 25, .str "done", []⟩
           error := none
           completedAt := some 1
           agentStatus := "complete"
           agentAborted := false
           timeoutArmed := true
           steps := [] } : SessionRecord).agentStatus ∧
    (applyEvent ⟨15⟩
        { report := some ⟨"complete", 2, 25, .str "done", []⟩
          error := none
          completedAt := some 1
          agentStatus := "complete"
          agentAborted := false
          timeoutArmed := true
          steps := [] } .stopRequest).agentStatus = "stopping" ∧
    (AgentLoop.stop initialAgentState).status = "stopping" :=
  c3_status ⟨15⟩
    { report := some ⟨"complete", 2, 25, .str "done", []⟩
      error := none
      completedAt := some 1
      agentStatus := "complete"
      agentAborted := false
      timeoutArmed := true
      steps := [] }
    initialAgentState 9 "act" (Or.inl rfl)
